import Mathlib

/-!
Shallow embedding of `src/scrape_async.py` (best-buy-in-stock-notifications).

The script has three pieces of behaviour the claims talk about:

* `notify(product)` — for each SNS topic arn of a product, read the DynamoDB
  table `inStock` keyed by `(url, arn)`; on a miss, publish to the topic and
  write a record with `inStock = now + IN_STOCK_EXP`; on a hit, only log.
  One `try/except` wraps the whole loop.
* `get_product_page(session, product)` — GET the page (timeout 30s, the only
  caught exception type is `asyncio.TimeoutError`), then run regex extraction
  (`RE_COMPONENT`, `RE_COMPONENT_DATA`), strip backslashes, `json.loads`, read
  `data["buttonState"]["buttonState"]`, and call `notify` iff it equals
  `"ADD_TO_CART"`.
* `get_all_product_pages(products)` — one task per product, joined with
  `asyncio.gather(..., return_exceptions=True)`; escaped exceptions are
  returned as values and discarded, not logged.

External effects (the DynamoDB store, the SNS publishes, the log) are made
explicit as a `World` record threaded through the functions; exceptions of
the injected kinds (store/publish faults, parse errors, transport errors)
are explicit values.  The asyncio tasks are interleaving-insensitive for the
properties below, so the gathered batch is modelled as a left fold.
-/

set_option autoImplicit false

namespace InStock

/-! ### JSON values and a strict parser modelling `json.loads` -/

/-- JSON values as produced by `json.loads`.  Numbers keep their lexeme: no
claim depends on numeric semantics of parsed JSON. -/
inductive JVal where
  | jnull : JVal
  | jbool : Bool → JVal
  | jnum : String → JVal
  | jstr : String → JVal
  | jarr : List JVal → JVal
  | jobj : List (String × JVal) → JVal

/-- JSON whitespace characters. -/
def isWsC (c : Char) : Bool :=
  c == ' ' || c == '\t' || c == '\n' || c == '\r'

def skipWs : List Char → List Char
  | [] => []
  | c :: rest => if isWsC c then skipWs rest else c :: rest

/-- Value of a hexadecimal digit. -/
def hexVal (c : Char) : Option Nat :=
  if '0' ≤ c ∧ c ≤ '9' then some (c.toNat - 48)
  else if 'a' ≤ c ∧ c ≤ 'f' then some (c.toNat - 87)
  else if 'A' ≤ c ∧ c ≤ 'F' then some (c.toNat - 55)
  else none

/-- Simple JSON string escapes. -/
def escChar (e : Char) : Option Char :=
  if e == '"' then some '"'
  else if e == '\\' then some '\\'
  else if e == '/' then some '/'
  else if e == 'b' then some (Char.ofNat 8)
  else if e == 'f' then some (Char.ofNat 12)
  else if e == 'n' then some '\n'
  else if e == 'r' then some '\r'
  else if e == 't' then some '\t'
  else none

/-- Body of a JSON string after the opening quote; returns the decoded
characters and the input after the closing quote.  (In the program every
parsed string is backslash-free — `notify`'s caller strips all backslashes
first — so the escape branches are unreachable there; surrogate pairs are
not recombined.)  Strict JSON rejects raw control characters. -/
def parseStrChars : Nat → List Char → Option (List Char × List Char)
  | 0, _ => none
  | _ + 1, [] => none
  | fuel + 1, c :: rest =>
    if c == '"' then some ([], rest)
    else if c == '\\' then
      match rest with
      | 'u' :: a :: b :: d :: e :: rest2 =>
        match hexVal a, hexVal b, hexVal d, hexVal e with
        | some x, some y, some z, some u =>
          (parseStrChars fuel rest2).map
            (fun pr => (Char.ofNat (((x * 16 + y) * 16 + z) * 16 + u) :: pr.1, pr.2))
        | _, _, _, _ => none
      | e :: rest2 =>
        match escChar e with
        | some ch => (parseStrChars fuel rest2).map (fun pr => (ch :: pr.1, pr.2))
        | none => none
      | [] => none
    else if c.toNat < 32 then none
    else (parseStrChars fuel rest).map (fun pr => (c :: pr.1, pr.2))

/-- Longest digit prefix and the rest. -/
def spanDigits : List Char → List Char × List Char
  | [] => ([], [])
  | c :: rest =>
    if c.isDigit then
      let pr := spanDigits rest
      (c :: pr.1, pr.2)
    else ([], c :: rest)

/-- Optional exponent part of a JSON number. -/
def parseExpPart (acc : List Char) (s : List Char) : Option (List Char × List Char) :=
  match s with
  | e :: rest =>
    if e == 'e' || e == 'E' then
      let sgnPr : List Char × List Char :=
        match rest with
        | '+' :: r => (['+'], r)
        | '-' :: r => (['-'], r)
        | _ => ([], rest)
      match spanDigits sgnPr.2 with
      | ([], _) => none
      | (ds, r2) => some (acc ++ [e] ++ sgnPr.1 ++ ds, r2)
    else some (acc, s)
  | [] => some (acc, [])

/-- Optional fraction and exponent after the integer part. -/
def afterInt (acc : List Char) (s : List Char) : Option (List Char × List Char) :=
  match s with
  | '.' :: rest =>
    match spanDigits rest with
    | ([], _) => none
    | (ds, r2) => parseExpPart (acc ++ ['.'] ++ ds) r2
  | _ => parseExpPart acc s

/-- JSON number grammar: `-?(0|[1-9][0-9]*)(.[0-9]+)?([eE][+-]?[0-9]+)?`. -/
def parseNum (s : List Char) : Option (List Char × List Char) :=
  let negPr : List Char × List Char :=
    match s with
    | '-' :: rest => (['-'], rest)
    | _ => ([], s)
  match negPr.2 with
  | [] => none
  | c :: rest =>
    if c == '0' then afterInt (negPr.1 ++ ['0']) rest
    else if c.isDigit then
      let pr := spanDigits rest
      afterInt (negPr.1 ++ [c] ++ pr.1) pr.2
    else none

mutual

/-- One JSON value (with leading whitespace) and the rest of the input. -/
def parseVal : Nat → List Char → Option (JVal × List Char)
  | 0, _ => none
  | fuel + 1, s =>
    match skipWs s with
    | 't' :: 'r' :: 'u' :: 'e' :: rest => some (.jbool true, rest)
    | 'f' :: 'a' :: 'l' :: 's' :: 'e' :: rest => some (.jbool false, rest)
    | 'n' :: 'u' :: 'l' :: 'l' :: rest => some (.jnull, rest)
    | '"' :: rest =>
      match parseStrChars (rest.length + 1) rest with
      | some (cs, r2) => some (.jstr (String.mk cs), r2)
      | none => none
    | '[' :: rest =>
      match skipWs rest with
      | ']' :: r2 => some (.jarr [], r2)
      | s2 =>
        match parseElems fuel s2 with
        | some (xs, r2) => some (.jarr xs, r2)
        | none => none
    | '{' :: rest =>
      match skipWs rest with
      | '}' :: r2 => some (.jobj [], r2)
      | s2 =>
        match parseMembers fuel s2 with
        | some (kvs, r2) => some (.jobj kvs, r2)
        | none => none
    | c :: rest =>
      if c == '-' || c.isDigit then
        match parseNum (c :: rest) with
        | some (lex, r2) => some (.jnum (String.mk lex), r2)
        | none => none
      else none
    | [] => none

/-- Comma-separated array elements up to the closing bracket. -/
def parseElems : Nat → List Char → Option (List JVal × List Char)
  | 0, _ => none
  | fuel + 1, s =>
    match parseVal fuel s with
    | none => none
    | some (v, r) =>
      match skipWs r with
      | ',' :: r2 =>
        match parseElems fuel r2 with
        | some (xs, r3) => some (v :: xs, r3)
        | none => none
      | ']' :: r2 => some ([v], r2)
      | _ => none

/-- Comma-separated object members up to the closing brace. -/
def parseMembers : Nat → List Char → Option (List (String × JVal) × List Char)
  | 0, _ => none
  | fuel + 1, s =>
    match skipWs s with
    | '"' :: rest =>
      match parseStrChars (rest.length + 1) rest with
      | none => none
      | some (kcs, r) =>
        match skipWs r with
        | ':' :: r2 =>
          match parseVal fuel r2 with
          | none => none
          | some (v, r3) =>
            match skipWs r3 with
            | ',' :: r4 =>
              match parseMembers fuel r4 with
              | some (kvs, r5) => some ((String.mk kcs, v) :: kvs, r5)
              | none => none
            | '}' :: r4 => some ([(String.mk kcs, v)], r4)
            | _ => none
        | _ => none
    | _ => none

end

/-- `json.loads`: parse one value and require the remaining input to be
whitespace (otherwise Python raises `JSONDecodeError("Extra data")`).
`none` models a raised `json.JSONDecodeError`.  The fuel bounds nesting
depth and element count, both below the input length. -/
def jsonParse (s : List Char) : Option JVal :=
  match parseVal (2 * s.length + 16) s with
  | some (v, rest) => if (skipWs rest).isEmpty then some v else none
  | none => none

/-- Python dicts parsed from JSON keep the **last** binding of a duplicated
key; `foldl` with overwrite realises that. -/
def lookupLast (kvs : List (String × JVal)) (key : String) : Option JVal :=
  kvs.foldl (fun acc kv => if kv.1 = key then some kv.2 else acc) none

/-- `data[key]` on a parsed JSON value: only a dict supports string
subscripts (`KeyError` on a missing key, `TypeError` on any other value —
both modelled as `none`, both escape `get_product_page`). -/
def jIndex : JVal → String → Option JVal
  | .jobj kvs, key => lookupLast kvs key
  | _, _ => none

/-- The text `LOG.info("%s: %s", button_state, ...)` would print for the
extracted value.  Composite renderings are abbreviated: the program only
ever formats the value with `%s`, and no claim inspects this log text. -/
def jreprAtom : JVal → String
  | .jnull => "None"
  | .jbool true => "True"
  | .jbool false => "False"
  | .jnum s => s
  | .jstr s => s
  | .jarr _ => "[...]"
  | .jobj _ => "\x7b...\x7d"

/-! ### The two regexes of the script

`RE_COMPONENT = initializeComponent(\(.*?add-to-cart-button.*\))` and
`RE_COMPONENT_DATA = {\\"app\\":.*}}`, both searched with `re.search` and
without DOTALL, so `.` never crosses a newline.  They are modelled directly:
leftmost match, lazy `.*?` taking the first viable occurrence, greedy `.*`
backtracking to the last viable closing literal. -/

/-- Longest newline-free prefix: the region a non-DOTALL `.` can traverse. -/
def takeNoNl : List Char → List Char
  | [] => []
  | c :: rest => if c == '\n' then [] else c :: takeNoNl rest

def hasPfx : List Char → List Char → Bool
  | [], _ => true
  | _ :: _, [] => false
  | p :: ps, c :: cs => p == c && hasPfx ps cs

/-- Index of the first occurrence of `pat` in `s`. -/
def findSubIdx (pat : List Char) : List Char → Option Nat
  | [] => if hasPfx pat [] then some 0 else none
  | s@(_ :: rest) =>
    if hasPfx pat s then some 0
    else
      match findSubIdx pat rest with
      | some i => some (i + 1)
      | none => none

/-- Index of the last occurrence of `pat` in `s`. -/
def lastSubIdx (pat : List Char) : List Char → Option Nat
  | [] => if hasPfx pat [] then some 0 else none
  | s@(_ :: rest) =>
    match lastSubIdx pat rest with
    | some i => some (i + 1)
    | none => if hasPfx pat s then some 0 else none

def componentLit : List Char := "initializeComponent".data

def btnLit : List Char := "add-to-cart-button".data

/-- Group 1 of `RE_COMPONENT` when the match begins at this position (the
input starts right after the literal `initializeComponent`): an opening
paren, then the lazy run up to the first `add-to-cart-button` reachable
without a newline, then the greedy run ending at the last `)` on the same
newline-free stretch.  If the first occurrence of the button literal has no
later `)`, no longer lazy run can succeed either (the search region only
shrinks), so the whole position fails. -/
def matchComponentAt (s : List Char) : Option (List Char) :=
  match s with
  | '(' :: rest =>
    let run := takeNoNl rest
    match findSubIdx btnLit run with
    | none => none
    | some j =>
      let afterBtn := (run.drop j).drop btnLit.length
      match lastSubIdx [')'] afterBtn with
      | none => none
      | some k => some ('(' :: (run.take j ++ btnLit ++ afterBtn.take k ++ [')']))
  | _ => none

/-- `RE_COMPONENT.search(html)`, returning `group(1)`. -/
def scanComponent : List Char → Option (List Char)
  | [] => none
  | s@(_ :: rest) =>
    if hasPfx componentLit s then
      match matchComponentAt (s.drop componentLit.length) with
      | some g => some g
      | none => scanComponent rest
    else scanComponent rest

/-- The literal prefix of `RE_COMPONENT_DATA`: the nine characters of
the source text between the braces of that pattern, backslashes included. -/
def dataLit : List Char := "\x7b\\\"app\\\":".data

/-- The closing literal of `RE_COMPONENT_DATA`. -/
def braces2 : List Char := "\x7d\x7d".data

/-- `RE_COMPONENT_DATA` matching at this position: the literal prefix, then
the greedy run ending at the last closing brace pair on the same
newline-free stretch. -/
def matchDataAt (s : List Char) : Option (List Char) :=
  if hasPfx dataLit s then
    let run := takeNoNl (s.drop dataLit.length)
    match lastSubIdx braces2 run with
    | none => none
    | some k => some (dataLit ++ run.take k ++ braces2)
  else none

/-- `RE_COMPONENT_DATA.search(component.group(1))`, returning `group()`. -/
def scanData : List Char → Option (List Char)
  | [] => none
  | s@(_ :: rest) =>
    match matchDataAt s with
    | some m => some m
    | none => scanData rest

/-- `component_data.group().replace("\\", "")`. -/
def removeBackslashes (s : List Char) : List Char :=
  s.filter (fun c => c != '\\')

/-! ### The extraction pipeline (lines 87–95 of the script) -/

/-- Exceptions the extraction stage can raise. -/
inductive PyExc where
  | jsonDecodeError : PyExc
  | lookupError : PyExc
deriving DecidableEq

/-- Outcome of lines 87–92: the two regex searches, the backslash strip,
`json.loads`, and the two subscripts.  A missing regex match falls through
silently (`noMatch`); a parse or subscript failure raises. -/
inductive Extraction where
  | noMatch : Extraction
  | exc : PyExc → Extraction
  | state : JVal → Extraction

def extract (html : String) : Extraction :=
  match scanComponent html.data with
  | none => .noMatch
  | some g =>
    match scanData g with
    | none => .noMatch
    | some frag =>
      match jsonParse (removeBackslashes frag) with
      | none => .exc .jsonDecodeError
      | some data =>
        match jIndex data "buttonState" with
        | none => .exc .lookupError
        | some inner =>
          match jIndex inner "buttonState" with
          | none => .exc .lookupError
          | some bs => .state bs

/-! ### Effects: store, publishes, log -/

/-- A configured product: `title`, `url`, `snsTopicArns`. -/
structure Product where
  title : String
  url : String
  snsTopicArns : List String
deriving DecidableEq

/-- One `topic.publish(Subject=..., Message=...)` call, with its target. -/
structure PubMsg where
  arn : String
  subject : String
  message : String
deriving DecidableEq

/-- The log lines the script can emit, in emission order. -/
inductive LogEntry where
  | debugNotify : String → LogEntry
  | infoSent : String → String → LogEntry
  | debugPaused : Int → String → LogEntry
  | excNotify : String → String → LogEntry
  | debugPage : String → LogEntry
  | debugDownloaded : String → LogEntry
  | infoButtonState : String → String → LogEntry
  | warnTimeout : String → LogEntry
  | debugAllPages : LogEntry
deriving DecidableEq

/-- External state threaded through the script: the DynamoDB `inStock`
table (keyed by `(url, arn)`), the SNS publishes so far, and the log. -/
structure World where
  store : List ((String × String) × Nat)
  published : List PubMsg
  logs : List LogEntry
deriving DecidableEq

/-- Injected failures of the external calls, per `(url, arn)` key:
`table.get_item`, `topic.publish`, `table.put_item` raising. -/
structure Faults where
  getFails : String → String → Bool
  publishFails : String → String → Bool
  putFails : String → String → Bool

def noFaults : Faults :=
  ⟨fun _ _ => false, fun _ _ => false, fun _ _ => false⟩

/-- `IN_STOCK_EXP`: seconds notifications stay suppressed after a hit. -/
def IN_STOCK_EXP : Nat := 3600

/-- `table.get_item(Key={"url": url, "arn": arn}).get('Item')`, reduced to
the `inStock` attribute the script reads. -/
def getItem (store : List ((String × String) × Nat)) (url arn : String) : Option Nat :=
  (store.find? (fun e => e.1 == (url, arn))).map (fun e => e.2)

/-- `table.put_item(Item=...)`: overwrite the item at the key. -/
def putItem (store : List ((String × String) × Nat)) (url arn : String) (v : Nat) :
    List ((String × String) × Nat) :=
  ((url, arn), v) :: store.filter (fun e => e.1 != (url, arn))

/-- The `Subject=` argument at line 52 — a constant: `.format` is applied
only to the `Message=` string, so the braces stay unsubstituted. -/
def subjectText : String := "\x7b\x7d is in stock at BestBuy"

/-- The `Message=` argument at line 53. -/
def messageText (p : Product) : String :=
  "\n\n" ++ p.title ++ " is in stock at BestBuy!\n\n" ++ p.url

/-- The `for arn in product["snsTopicArns"]` loop of `notify`, lines 45–65.
The surrounding `try/except` (lines 41/66) is part of the loop's meaning:
the first raising call aborts the remaining iterations and the handler logs
one `LOG.exception` line.  `put_item` runs only after a successful
`publish`. -/
def notifyGo (p : Product) (now : Nat) (f : Faults) : List String → World → World
  | [], w => w
  | arn :: rest, w =>
    if f.getFails p.url arn then
      { w with logs := w.logs ++ [.excNotify arn p.url] }
    else
      match getItem w.store p.url arn with
      | none =>
        let w1 : World := { w with logs := w.logs ++ [.infoSent arn p.url] }
        if f.publishFails p.url arn then
          { w1 with logs := w1.logs ++ [.excNotify arn p.url] }
        else
          let w2 : World :=
            { w1 with published := w1.published ++ [⟨arn, subjectText, messageText p⟩] }
          if f.putFails p.url arn then
            { w2 with logs := w2.logs ++ [.excNotify arn p.url] }
          else
            notifyGo p now f rest
              { w2 with store := putItem w2.store p.url arn (now + IN_STOCK_EXP) }
      | some ts =>
        notifyGo p now f rest
          { w with logs := w.logs ++ [.debugPaused ((ts : Int) - (now : Int)) arn] }

/-- `notify(product)`, lines 39–67.  `now` stands for
`int(datetime.datetime.now().timestamp())` (the script samples the clock
per use; one sample is enough for every claim below). -/
def notify (p : Product) (now : Nat) (f : Faults) (w : World) : World :=
  notifyGo p now f p.snsTopicArns { w with logs := w.logs ++ [.debugNotify p.title] }

/-! ### The fetch-and-extract unit and the batch -/

/-- Result of the `session.get` + `response.text()` at lines 73–86. -/
inductive FetchOutcome where
  | success : String → FetchOutcome
  | timeout : FetchOutcome
  | transportError : FetchOutcome

/-- An exception escaping `get_product_page`: anything but
`asyncio.TimeoutError` is uncaught there. -/
inductive PyFail where
  | clientError : PyFail
  | extractionExc : PyExc → PyFail
deriving DecidableEq

/-- `button_state == "ADD_TO_CART"` (line 94): Python equality of the
parsed value with that string — true only for the equal `str`. -/
def isAddToCart : JVal → Bool
  | .jstr s => s == "ADD_TO_CART"
  | _ => false

/-- `get_product_page(session, product)`, lines 70–97.  The pair's second
component is the exception escaping the coroutine, if any: the `except`
clause catches only the timeout. -/
def get_product_page (fetch : FetchOutcome) (p : Product) (now : Nat) (f : Faults)
    (w : World) : World × Option PyFail :=
  let w0 : World := { w with logs := w.logs ++ [.debugPage p.title] }
  match fetch with
  | .timeout => ({ w0 with logs := w0.logs ++ [.warnTimeout p.url] }, none)
  | .transportError => (w0, some .clientError)
  | .success body =>
    let w1 : World := { w0 with logs := w0.logs ++ [.debugDownloaded p.url] }
    match extract body with
    | .noMatch => (w1, none)
    | .exc e => (w1, some (.extractionExc e))
    | .state bs =>
      let w2 : World :=
        { w1 with logs := w1.logs ++ [.infoButtonState (jreprAtom bs) p.title] }
      if isAddToCart bs then (notify p now f w2, none) else (w2, none)

/-- `get_all_product_pages(products)`, lines 100–107.  `asyncio.gather`
with `return_exceptions=True` turns each escaped exception into a value in
the discarded result list, so the batch itself is total and silent about
them; the tasks are folded in list order (the claims below do not depend on
the interleaving). -/
def get_all_product_pages (env : Product → FetchOutcome) (now : Nat) (f : Faults)
    (products : List Product) (w : World) : World :=
  products.foldl (fun acc p => (get_product_page (env p) p now f acc).1)
    { w with logs := w.logs ++ [.debugAllPages] }

/-! ### Concrete page bodies for the tests below -/

/-- A page body in the shape the regexes expect, whose embedded JSON
carries the given nested `buttonState` value.  The fragment mixes the
escaped quotes required by `RE_COMPONENT_DATA`'s literal prefix with plain
quotes, so the body contains the plain marker text
`"buttonState":"<v>"` verbatim. -/
def bodyFor (v : String) : String :=
  "initializeComponent(add-to-cart-button \x7b\\\"app\\\":1,\"buttonState\":\x7b\"buttonState\":\""
    ++ v ++ "\"\x7d\x7d)"

/-- A body whose component block matches both regexes but whose embedded
JSON is malformed (`json.loads` raises). -/
def bodyMalformed : String :=
  "initializeComponent(add-to-cart-button \x7b\\\"app\\\":,\x7d\x7d)"

/-- A body whose embedded JSON is well-formed but lacks the nested
`buttonState` field (the subscript raises). -/
def bodyNoBtnState : String :=
  "initializeComponent(add-to-cart-button \x7b\\\"app\\\":\x7b\x7d\x7d)"

example : extract (bodyFor "ADD_TO_CART") = .state (.jstr "ADD_TO_CART") := rfl
example : extract (bodyFor "CHECK_STORES") = .state (.jstr "CHECK_STORES") := rfl
example : extract (bodyFor "SOLD_OUT") = .state (.jstr "SOLD_OUT") := rfl
example : extract "no component marker here" = .noMatch := rfl
example : extract bodyMalformed = .exc .jsonDecodeError := rfl
example : extract bodyNoBtnState = .exc .lookupError := rfl

/-- Example product and empty world used by the concrete instances. -/
def pA : Product := ⟨"A", "http://x/a", ["t1"]⟩

def pB : Product := ⟨"B", "http://x/b", ["t2"]⟩

def pOne : Product := ⟨"T", "u", ["a1"]⟩

def pTwo : Product := ⟨"T", "u", ["a1", "a2"]⟩

def w0 : World := ⟨[], [], []⟩

/-- Faults making exactly the `topic.publish` call for arn `a1` raise. -/
def faultsPub1 : Faults := ⟨fun _ _ => false, fun _ arn => arn == "a1", fun _ _ => false⟩

/-! ### Helper lemmas -/

theorem isAddToCart_iff (v : JVal) : isAddToCart v = true ↔ v = .jstr "ADD_TO_CART" := by
  cases v <;> simp [isAddToCart]

theorem getItem_putItem_self (store : List ((String × String) × Nat)) (url arn : String)
    (v : Nat) : getItem (putItem store url arn v) url arn = some v := by
  simp [getItem, putItem, List.find?]

/-- `notify` on a single-target product with a store miss and no faults:
one publish, one record, two log lines. -/
theorem notify_single_miss (p : Product) (arn : String) (now : Nat) (f : Faults) (w : World)
    (hp : p.snsTopicArns = [arn])
    (hmiss : getItem w.store p.url arn = none)
    (hg : f.getFails p.url arn = false)
    (hpub : f.publishFails p.url arn = false)
    (hput : f.putFails p.url arn = false) :
    notify p now f w =
      { store := putItem w.store p.url arn (now + IN_STOCK_EXP),
        published := w.published ++ [⟨arn, subjectText, messageText p⟩],
        logs := w.logs ++ [.debugNotify p.title, .infoSent arn p.url] } := by
  simp [notify, notifyGo, hp, hmiss, hg, hpub, hput]

/-- `notify` on a single-target product with an existing record: only two
log lines, no publish, no write — whatever the record's timestamp. -/
theorem notify_single_hit (p : Product) (arn : String) (ts now : Nat) (f : Faults) (w : World)
    (hp : p.snsTopicArns = [arn])
    (hhit : getItem w.store p.url arn = some ts)
    (hg : f.getFails p.url arn = false) :
    notify p now f w =
      { w with logs := w.logs ++ [.debugNotify p.title,
                                  .debugPaused ((ts : Int) - (now : Int)) arn] } := by
  simp [notify, notifyGo, hp, hhit, hg]

/-- `get_product_page` on a body whose extraction yields `ADD_TO_CART`
runs `notify` after the three leading log lines. -/
theorem gpp_add (body : String) (p : Product) (now : Nat) (f : Faults) (w : World)
    (hex : extract body = .state (.jstr "ADD_TO_CART")) :
    get_product_page (.success body) p now f w =
      (notify p now f
        { w with logs := w.logs ++ [.debugPage p.title, .debugDownloaded p.url,
                                    .infoButtonState "ADD_TO_CART" p.title] }, none) := by
  simp [get_product_page, hex, isAddToCart, jreprAtom]

/-- Every publish `notifyGo` appends carries the constant subject and the
formatted message of its product. -/
theorem notifyGo_published (p : Product) (now : Nat) (f : Faults) :
    ∀ (arns : List String) (w : World) (e : PubMsg),
      e ∈ (notifyGo p now f arns w).published →
      e ∈ w.published ∨ (e.subject = subjectText ∧ e.message = messageText p)
  | [], w, e => fun h => Or.inl h
  | arn :: rest, w, e => by
    intro h
    by_cases hg : f.getFails p.url arn = true
    · simp only [notifyGo, hg, if_true] at h
      exact Or.inl h
    · rw [Bool.not_eq_true] at hg
      rcases hgi : getItem w.store p.url arn with _ | ts
      · by_cases hpub : f.publishFails p.url arn = true
        · simp only [notifyGo, hg, hgi, hpub, Bool.false_eq_true, if_false, if_true] at h
          exact Or.inl h
        · rw [Bool.not_eq_true] at hpub
          by_cases hput : f.putFails p.url arn = true
          · simp only [notifyGo, hg, hgi, hpub, hput, Bool.false_eq_true, if_false,
              if_true] at h
            rcases List.mem_append.mp h with h1 | h1
            · exact Or.inl h1
            · rcases List.mem_singleton.mp h1 with rfl
              exact Or.inr ⟨rfl, rfl⟩
          · rw [Bool.not_eq_true] at hput
            simp only [notifyGo, hg, hgi, hpub, hput, Bool.false_eq_true, if_false] at h
            rcases notifyGo_published p now f rest _ e h with h1 | h1
            · rcases List.mem_append.mp h1 with h2 | h2
              · exact Or.inl h2
              · rcases List.mem_singleton.mp h2 with rfl
                exact Or.inr ⟨rfl, rfl⟩
            · exact Or.inr h1
      · simp only [notifyGo, hg, hgi, Bool.false_eq_true, if_false] at h
        rcases notifyGo_published p now f rest _ e h with h1 | h1
        · exact Or.inl h1
        · exact Or.inr h1

/-! ### Claims -/

/-- C1: on a store miss for `(url, arn)` the gate fires exactly once — one
publish and one fresh suppression record for the key — and an immediate
second call against the resulting store publishes nothing and leaves the
store unchanged. -/
theorem notify_first_time_once (title url arn : String) (now : Nat) (f : Faults) (w : World)
    (hmiss : getItem w.store url arn = none)
    (hg : f.getFails url arn = false)
    (hpub : f.publishFails url arn = false)
    (hput : f.putFails url arn = false) :
    (notify ⟨title, url, [arn]⟩ now f w).published
        = w.published ++ [⟨arn, subjectText, messageText ⟨title, url, [arn]⟩⟩]
    ∧ getItem (notify ⟨title, url, [arn]⟩ now f w).store url arn = some (now + IN_STOCK_EXP)
    ∧ (notify ⟨title, url, [arn]⟩ now f (notify ⟨title, url, [arn]⟩ now f w)).published
        = (notify ⟨title, url, [arn]⟩ now f w).published
    ∧ (notify ⟨title, url, [arn]⟩ now f (notify ⟨title, url, [arn]⟩ now f w)).store
        = (notify ⟨title, url, [arn]⟩ now f w).store := by
  have h1 := notify_single_miss ⟨title, url, [arn]⟩ arn now f w rfl hmiss hg hpub hput
  rw [h1]
  have h2 := getItem_putItem_self w.store url arn (now + IN_STOCK_EXP)
  refine ⟨rfl, h2, ?_, ?_⟩ <;>
    rw [notify_single_hit ⟨title, url, [arn]⟩ arn (now + IN_STOCK_EXP) now f _ rfl h2 hg]

/-- Witness for C1 at a concrete product, target, and empty store. -/
theorem notify_first_time_once_witness :
    (notify pA 0 noFaults w0).published = w0.published ++ [⟨"t1", subjectText, messageText pA⟩]
    ∧ getItem (notify pA 0 noFaults w0).store "http://x/a" "t1" = some (0 + IN_STOCK_EXP)
    ∧ (notify pA 0 noFaults (notify pA 0 noFaults w0)).published
        = (notify pA 0 noFaults w0).published
    ∧ (notify pA 0 noFaults (notify pA 0 noFaults w0)).store
        = (notify pA 0 noFaults w0).store :=
  notify_first_time_once "A" "http://x/a" "t1" 0 noFaults w0 rfl rfl rfl rfl

/-- C2 counterexample: on a body whose embedded component JSON is
malformed, the parse failure raises out of `get_product_page` — the
`JSONDecodeError` escapes the extraction stage — and the only log lines
emitted are the two entry debug lines, so the failure itself is not
logged at any level. -/
theorem malformed_json_raises_cex :
    (get_product_page (.success bodyMalformed) pA 0 noFaults w0).2
        = some (.extractionExc .jsonDecodeError)
    ∧ (get_product_page (.success bodyMalformed) pA 0 noFaults w0).1
        = ⟨[], [], [.debugPage "A", .debugDownloaded "http://x/a"]⟩ :=
  ⟨rfl, rfl⟩

/-- C2 amended: extraction of a malformed or truncated embedded fragment
raises instead of yielding Unknown; the exception escapes
`get_product_page` without being logged, no notification and no store
write happen for the product, and `gather(return_exceptions=True)`
absorbs the exception at the batch boundary, discarding it silently. -/
theorem extraction_exc_propagates (body : String) (p : Product) (now : Nat) (f : Faults)
    (w : World) (e : PyExc) (env : Product → FetchOutcome)
    (hex : extract body = .exc e) (henv : env p = .success body) :
    (get_product_page (.success body) p now f w).2 = some (.extractionExc e)
    ∧ (get_product_page (.success body) p now f w).1.published = w.published
    ∧ (get_product_page (.success body) p now f w).1.store = w.store
    ∧ get_all_product_pages env now f [p] w
        = { w with logs := w.logs ++ [.debugAllPages, .debugPage p.title,
                                      .debugDownloaded p.url] } := by
  refine ⟨by simp [get_product_page, hex], by simp [get_product_page, hex],
    by simp [get_product_page, hex], ?_⟩
  simp [get_all_product_pages, henv, get_product_page, hex, List.append_assoc]

/-- Witness for the amended C2, at a body whose embedded JSON parses but
lacks the nested `buttonState` field. -/
theorem extraction_exc_propagates_witness :
    (get_product_page (.success bodyNoBtnState) pA 0 noFaults w0).2
        = some (.extractionExc .lookupError)
    ∧ (get_product_page (.success bodyNoBtnState) pA 0 noFaults w0).1.published = w0.published
    ∧ (get_product_page (.success bodyNoBtnState) pA 0 noFaults w0).1.store = w0.store
    ∧ get_all_product_pages (fun _ => .success bodyNoBtnState) 0 noFaults [pA] w0
        = { w0 with logs := w0.logs ++ [.debugAllPages, .debugPage pA.title,
                                        .debugDownloaded pA.url] } :=
  extraction_exc_propagates bodyNoBtnState pA 0 noFaults w0 .lookupError
    (fun _ => .success bodyNoBtnState) rfl rfl

/-- C3 counterexample: a body literally containing the marker
`"buttonState":"CHECK_STORES"`, whose extraction succeeds with exactly
that value, produces no publish and no store write even against an empty
store — `CHECK_STORES` does not proceed to the notification stage. -/
theorem check_stores_not_notified_cex :
    (findSubIdx ("\"buttonState\":\"CHECK_STORES\"".data)
        ((bodyFor "CHECK_STORES").data)).isSome = true
    ∧ extract (bodyFor "CHECK_STORES") = .state (.jstr "CHECK_STORES")
    ∧ (get_product_page (.success (bodyFor "CHECK_STORES")) pA 0 noFaults w0).1.published = []
    ∧ (get_product_page (.success (bodyFor "CHECK_STORES")) pA 0 noFaults w0).1.store = [] :=
  ⟨rfl, rfl, rfl, rfl⟩

/-- C3 amended: only the exact nested value `ADD_TO_CART` reaches the
notification stage; `CHECK_STORES` and `SOLD_OUT` extract successfully
but notify nothing, and a marker-free body extracts nothing and notifies
nothing. -/
theorem button_state_dispatch :
    extract (bodyFor "ADD_TO_CART") = .state (.jstr "ADD_TO_CART")
    ∧ (get_product_page (.success (bodyFor "ADD_TO_CART")) pA 0 noFaults w0).1.published
        = [⟨"t1", subjectText, messageText pA⟩]
    ∧ extract (bodyFor "CHECK_STORES") = .state (.jstr "CHECK_STORES")
    ∧ (get_product_page (.success (bodyFor "CHECK_STORES")) pA 0 noFaults w0).1.published = []
    ∧ extract (bodyFor "SOLD_OUT") = .state (.jstr "SOLD_OUT")
    ∧ (get_product_page (.success (bodyFor "SOLD_OUT")) pA 0 noFaults w0).1.published = []
    ∧ extract "no component marker here" = .noMatch
    ∧ (get_product_page (.success "no component marker here") pA 0 noFaults w0).1.published
        = [] :=
  ⟨rfl, rfl, rfl, rfl, rfl, rfl, rfl, rfl⟩

/-- C4: an existing record for the key blocks notification regardless of
its timestamp — no publish and no store change, under any faults; the
code never inspects whether `suppressedUntil` has passed. -/
theorem record_blocks_even_expired (title url arn : String) (ts now : Nat) (f : Faults)
    (w : World) (hhit : getItem w.store url arn = some ts) :
    (notify ⟨title, url, [arn]⟩ now f w).published = w.published
    ∧ (notify ⟨title, url, [arn]⟩ now f w).store = w.store := by
  by_cases hg : f.getFails url arn = true
  · constructor <;> simp [notify, notifyGo, hg]
  · rw [Bool.not_eq_true] at hg
    rw [notify_single_hit ⟨title, url, [arn]⟩ arn ts now f w rfl hhit hg]
    exact ⟨rfl, rfl⟩

/-- Witness for C4 with a record whose timestamp has long expired
(suppressedUntil 5, lookup at time 1000): still no publish. -/
theorem record_blocks_even_expired_witness :
    (notify ⟨"T", "u", ["a1"]⟩ 1000 noFaults ⟨[(("u", "a1"), 5)], [], []⟩).published
        = (⟨[(("u", "a1"), 5)], [], []⟩ : World).published
    ∧ (notify ⟨"T", "u", ["a1"]⟩ 1000 noFaults ⟨[(("u", "a1"), 5)], [], []⟩).store
        = (⟨[(("u", "a1"), 5)], [], []⟩ : World).store :=
  record_blocks_even_expired "T" "u" "a1" 5 1000 noFaults ⟨[(("u", "a1"), 5)], [], []⟩ rfl

/-- C5 counterexample: two targets, a publish failure on the first — the
second target is never gated, published, or recorded: the loop's shared
`try/except` aborts the remaining targets of the product. -/
theorem publish_failure_blocks_second_target_cex :
    (notify pTwo 0 faultsPub1 w0).published = []
    ∧ getItem (notify pTwo 0 faultsPub1 w0).store "u" "a2" = none
    ∧ (notify pTwo 0 faultsPub1 w0).logs
        = [.debugNotify "T", .infoSent "a1" "u", .excNotify "a1" "u"] :=
  ⟨rfl, rfl, rfl⟩

/-- C5 amended: a failure while handling one target is caught and logged
at the product level, but it aborts the loop: the gate-and-publish
sequence does not run for that product's remaining targets (sibling
products, being separate tasks, are unaffected). -/
theorem target_failure_aborts_rest (p : Product) (now : Nat) (f : Faults) (w : World)
    (a1 : String) (rest : List String)
    (hp : p.snsTopicArns = a1 :: rest)
    (hg : f.getFails p.url a1 = false)
    (hmiss : getItem w.store p.url a1 = none)
    (hpub : f.publishFails p.url a1 = true) :
    notify p now f w
      = { w with logs := w.logs ++ [.debugNotify p.title, .infoSent a1 p.url,
                                    .excNotify a1 p.url] } := by
  simp [notify, notifyGo, hp, hg, hmiss, hpub, List.append_assoc]

/-- Witness for the amended C5. -/
theorem target_failure_aborts_rest_witness :
    notify pTwo 5 faultsPub1 w0
      = { w0 with logs := w0.logs ++ [.debugNotify pTwo.title, .infoSent "a1" pTwo.url,
                                      .excNotify "a1" pTwo.url] } :=
  target_failure_aborts_rest pTwo 5 faultsPub1 w0 "a1" ["a2"] rfl rfl rfl rfl

/-- C6: a body whose extraction does not produce the string `ADD_TO_CART`
— another button state, a missing marker, or a raising parse — leads to
no publish and no store write for any target of the product. -/
theorem not_add_to_cart_no_side_effects (body : String) (p : Product) (now : Nat)
    (f : Faults) (w : World) (hne : extract body ≠ .state (.jstr "ADD_TO_CART")) :
    (get_product_page (.success body) p now f w).1.published = w.published
    ∧ (get_product_page (.success body) p now f w).1.store = w.store := by
  rcases hex : extract body with _ | e | bs
  · constructor <;> simp [get_product_page, hex]
  · constructor <;> simp [get_product_page, hex]
  · have hb : isAddToCart bs = false := by
      rcases hbs : isAddToCart bs
      · rfl
      · exact absurd (hex.trans (congrArg Extraction.state ((isAddToCart_iff bs).mp hbs))) hne
    constructor <;> simp [get_product_page, hex, hb]

/-- Witness for C6 at a `SOLD_OUT` body. -/
theorem not_add_to_cart_no_side_effects_witness :
    (get_product_page (.success (bodyFor "SOLD_OUT")) pA 0 noFaults w0).1.published
        = w0.published
    ∧ (get_product_page (.success (bodyFor "SOLD_OUT")) pA 0 noFaults w0).1.store
        = w0.store :=
  not_add_to_cart_no_side_effects (bodyFor "SOLD_OUT") pA 0 noFaults w0 (by
    intro h
    rw [show extract (bodyFor "SOLD_OUT") = Extraction.state (JVal.jstr "SOLD_OUT")
          from rfl] at h
    exact absurd (JVal.jstr.inj (Extraction.state.inj h)) (by decide))

/-- C7 counterexample: a non-timeout transport failure does raise past the
fetch boundary — `get_product_page` lets it escape — and nothing beyond
the entry debug line is logged, so the failure is not reported there. -/
theorem transport_error_escapes_cex :
    (get_product_page .transportError pA 0 noFaults w0).2 = some .clientError
    ∧ (get_product_page .transportError pA 0 noFaults w0).1
        = ⟨[], [], [.debugPage "A"]⟩ :=
  ⟨rfl, rfl⟩

/-- C7 amended: a non-timeout transport failure escapes
`get_product_page` unlogged; `gather(return_exceptions=True)` absorbs it,
so the failure is not fatal to the batch and a sibling available product
still gets its notification. -/
theorem transport_error_swallowed_at_batch (p q : Product) (arn body : String)
    (env : Product → FetchOutcome) (now : Nat) (f : Faults) (w : World)
    (henvp : env p = .transportError) (henvq : env q = .success body)
    (hex : extract body = .state (.jstr "ADD_TO_CART"))
    (hq : q.snsTopicArns = [arn])
    (hmiss : getItem w.store q.url arn = none)
    (hg : f.getFails q.url arn = false)
    (hpub : f.publishFails q.url arn = false)
    (hput : f.putFails q.url arn = false) :
    (get_product_page .transportError p now f w).2 = some .clientError
    ∧ (get_product_page .transportError p now f w).1
        = { w with logs := w.logs ++ [.debugPage p.title] }
    ∧ (get_all_product_pages env now f [p, q] w).published
        = w.published ++ [⟨arn, subjectText, messageText q⟩] := by
  refine ⟨rfl, rfl, ?_⟩
  simp [get_all_product_pages, henvp, henvq, get_product_page, hex, isAddToCart, jreprAtom,
        notify, notifyGo, hq, hmiss, hg, hpub, hput]

/-- Witness for the amended C7. -/
theorem transport_error_swallowed_at_batch_witness :
    (get_product_page .transportError pB 3 noFaults w0).2 = some .clientError
    ∧ (get_product_page .transportError pB 3 noFaults w0).1
        = { w0 with logs := w0.logs ++ [.debugPage pB.title] }
    ∧ (get_all_product_pages
          (fun r => if r.title = "A" then .success (bodyFor "ADD_TO_CART")
                    else .transportError) 3 noFaults [pB, pA] w0).published
        = w0.published ++ [⟨"t1", subjectText, messageText pA⟩] :=
  transport_error_swallowed_at_batch pB pA "t1" (bodyFor "ADD_TO_CART")
    (fun r => if r.title = "A" then .success (bodyFor "ADD_TO_CART") else .transportError)
    3 noFaults w0 rfl rfl rfl rfl rfl rfl rfl rfl

/-- C8: in a batch with one timing-out product and one available product
over a store with no record for the available key, the batch completes:
the timeout is caught inside its unit (no exception escapes it) and
logged, and the sibling's notification is still published and recorded. -/
theorem timeout_batch_sibling_notifies (p q : Product) (arn body : String)
    (env : Product → FetchOutcome) (now : Nat) (f : Faults) (w : World)
    (henvp : env p = .timeout) (henvq : env q = .success body)
    (hex : extract body = .state (.jstr "ADD_TO_CART"))
    (hq : q.snsTopicArns = [arn])
    (hmiss : getItem w.store q.url arn = none)
    (hg : f.getFails q.url arn = false)
    (hpub : f.publishFails q.url arn = false)
    (hput : f.putFails q.url arn = false) :
    (get_product_page .timeout p now f w).2 = none
    ∧ (get_all_product_pages env now f [p, q] w).published
        = w.published ++ [⟨arn, subjectText, messageText q⟩]
    ∧ LogEntry.warnTimeout p.url ∈ (get_all_product_pages env now f [p, q] w).logs
    ∧ getItem (get_all_product_pages env now f [p, q] w).store q.url arn
        = some (now + IN_STOCK_EXP) := by
  refine ⟨rfl, ?_, ?_, ?_⟩ <;>
    simp [get_all_product_pages, henvp, henvq, get_product_page, hex, isAddToCart, jreprAtom,
          notify, notifyGo, hq, hmiss, hg, hpub, hput, getItem_putItem_self]

/-- Witness for C8. -/
theorem timeout_batch_sibling_notifies_witness :
    (get_product_page .timeout pB 7 noFaults w0).2 = none
    ∧ (get_all_product_pages
          (fun r => if r.title = "A" then .success (bodyFor "ADD_TO_CART") else .timeout)
          7 noFaults [pB, pA] w0).published
        = w0.published ++ [⟨"t1", subjectText, messageText pA⟩]
    ∧ LogEntry.warnTimeout pB.url ∈ (get_all_product_pages
          (fun r => if r.title = "A" then .success (bodyFor "ADD_TO_CART") else .timeout)
          7 noFaults [pB, pA] w0).logs
    ∧ getItem (get_all_product_pages
          (fun r => if r.title = "A" then .success (bodyFor "ADD_TO_CART") else .timeout)
          7 noFaults [pB, pA] w0).store pA.url "t1" = some (7 + IN_STOCK_EXP) :=
  timeout_batch_sibling_notifies pB pA "t1" (bodyFor "ADD_TO_CART")
    (fun r => if r.title = "A" then .success (bodyFor "ADD_TO_CART") else .timeout)
    7 noFaults w0 rfl rfl rfl rfl rfl rfl rfl rfl

/-- C9 counterexample: with an empty store the gate approves (the info
line is logged), but the publish raises before `put_item` runs, and no
suppression record is written for the key. -/
theorem gate_miss_publish_fail_no_record_cex :
    getItem (notify pOne 0 faultsPub1 w0).store "u" "a1" = none
    ∧ (notify pOne 0 faultsPub1 w0).logs
        = [.debugNotify "T", .infoSent "a1" "u", .excNotify "a1" "u"] :=
  ⟨rfl, rfl⟩

/-- C9 amended: on a store miss the record write happens only after a
successful publish — the write and the publish succeed or abort together:
a publish failure leaves the store without a record for the key, while a
fault-free run writes `now + IN_STOCK_EXP`. -/
theorem record_write_requires_publish_success (title url arn : String) (now : Nat)
    (f : Faults) (w : World)
    (hmiss : getItem w.store url arn = none)
    (hg : f.getFails url arn = false) :
    (f.publishFails url arn = true →
        (notify ⟨title, url, [arn]⟩ now f w).store = w.store)
    ∧ (f.publishFails url arn = false → f.putFails url arn = false →
        getItem (notify ⟨title, url, [arn]⟩ now f w).store url arn
          = some (now + IN_STOCK_EXP)) := by
  constructor
  · intro hpub
    simp [notify, notifyGo, hg, hmiss, hpub]
  · intro hpub hput
    rw [notify_single_miss ⟨title, url, [arn]⟩ arn now f w rfl hmiss hg hpub hput]
    exact getItem_putItem_self w.store url arn (now + IN_STOCK_EXP)

/-- Witness for the amended C9, on the publish-failure side. -/
theorem record_write_requires_publish_success_witness :
    (notify ⟨"T", "u", ["a1"]⟩ 0 faultsPub1 w0).store = w0.store :=
  (record_write_requires_publish_success "T" "u" "a1" 0 faultsPub1 w0 rfl rfl).1 rfl

/-- C10: the subject of every publish is the constant literal with the
unsubstituted placeholder, and only the message body interpolates the
product's title and url. -/
theorem subject_always_constant (p : Product) (now : Nat) (f : Faults) (w : World)
    (e : PubMsg) (he : e ∈ (notify p now f w).published) :
    e ∈ w.published
    ∨ (e.subject = "\x7b\x7d is in stock at BestBuy"
       ∧ e.message = "\n\n" ++ p.title ++ " is in stock at BestBuy!\n\n" ++ p.url) := by
  rcases notifyGo_published p now f p.snsTopicArns _ e he with h | h
  · exact Or.inl h
  · exact Or.inr ⟨h.1, h.2⟩

/-- Witness for C10 at the concrete first-time notification. -/
theorem subject_always_constant_witness :
    PubMsg.mk "t1" subjectText (messageText pA) ∈ w0.published
    ∨ ((PubMsg.mk "t1" subjectText (messageText pA)).subject
          = "\x7b\x7d is in stock at BestBuy"
       ∧ (PubMsg.mk "t1" subjectText (messageText pA)).message
          = "\n\n" ++ pA.title ++ " is in stock at BestBuy!\n\n" ++ pA.url) :=
  subject_always_constant pA 0 noFaults w0 ⟨"t1", subjectText, messageText pA⟩ (by
    rw [show (notify pA 0 noFaults w0).published
          = [⟨"t1", subjectText, messageText pA⟩] from rfl]
    exact List.mem_singleton.mpr rfl)

end InStock
